import Mathlib

/-!
# The log-store cache of `internal/logdb/cache.go`

A shallow embedding of the `cache` type and its eight methods, followed by
the properties of the cache that are checked against the code.

Conventions of the embedding.

* `uint64` values are natural numbers.  The code never does arithmetic on
  them (it only stores, compares with `>` and returns them), so no
  wrap-around can occur and every statement proved for all naturals holds in
  particular for all values below `2 ^ 64`.
* A Go map is a function from keys to `Option` values; the comma-ok lookup
  `v, ok := m[key]` is a `match` on the result of the function.
* A Go slice is a backing array together with a length; the capacity is the
  length of the backing array.
* The mutex `mu` is not part of the state: every method body runs between
  `Lock` and the deferred `Unlock`, and the embedding describes the effect of
  one such critical section as a function from the state before to the state
  after (and the returned values).
-/

namespace logdb

/-! ## Keys and maps -/

/-- The key type `raftio.NodeInfo` as the code builds it:
`raftio.NodeInfo{ShardID: shardID, ReplicaID: replicaID}`. -/
structure NodeInfo where
  ShardID : Nat
  ReplicaID : Nat
deriving DecidableEq, Repr

/-- A Go `map[raftio.NodeInfo]V`. -/
abbrev GoMap (V : Type) : Type := NodeInfo → Option V

/-- The map `make(map[raftio.NodeInfo]V)`. -/
def GoMap.empty {V : Type} : GoMap V := fun _ => none

/-- The assignment `m[key] = v`. -/
def GoMap.store {V : Type} (m : GoMap V) (key : NodeInfo) (v : V) : GoMap V :=
  fun k => if k = key then some v else m k

/-! ## Slices -/

/-- A Go slice: the backing array as seen from the start of the slice, and the
length of the slice.  The capacity is `arr.length`. -/
structure Slice (α : Type) where
  arr : List α
  len : Nat
  hlen : len ≤ arr.length

/-- The `nil` slice, the zero value of a slice type. -/
def Slice.nil {α : Type} : Slice α := ⟨[], 0, Nat.le_refl 0⟩

/-- The elements of the slice, `s[0], ..., s[len(s)-1]`. -/
def Slice.toList {α : Type} (s : Slice α) : List α := s.arr.take s.len

/-- The capacity `cap(s)`. -/
def Slice.cap {α : Type} (s : Slice α) : Nat := s.arr.length

/-- The slice `make([]T, 0, n)`: a new array of `n` zero values, length 0. -/
def Slice.make {α : Type} (zero : α) (n : Nat) : Slice α :=
  ⟨List.replicate n zero, 0, Nat.zero_le _⟩

/-- The slice expression `s[:0]`: same backing array, length 0. -/
def Slice.reslice0 {α : Type} (s : Slice α) : Slice α :=
  ⟨s.arr, 0, Nat.zero_le _⟩

/-- The builtin `append(s, xs...)`.  When the capacity suffices the elements
are written into the backing array of `s` behind its last element; otherwise a
new array is allocated that holds the elements of `s` followed by `xs`.  The
capacity of the new array is chosen by the Go runtime: it is the needed length
plus `growSlack (cap s) needed` further zero values. -/
def Slice.append {α : Type} (zero : α) (growSlack : Nat → Nat → Nat)
    (s : Slice α) (xs : List α) : Slice α :=
  if h : s.len + xs.length ≤ s.arr.length then
    ⟨s.arr.take s.len ++ xs ++ s.arr.drop (s.len + xs.length),
      s.len + xs.length, by
        simp only [List.length_append, List.length_take, List.length_drop]
        omega⟩
  else
    ⟨s.arr.take s.len ++ xs ++
        List.replicate (growSlack s.arr.length (s.len + xs.length)) zero,
      s.len + xs.length, by
        have := s.hlen
        simp only [List.length_append, List.length_take, List.length_replicate]
        omega⟩

/-! ## The types of package `raftpb` -/

/-- The type `pb.EntryBatch`, of which the code uses the one field `Entries`,
a slice of `pb.Entry`.  The entry type is a parameter. -/
structure EntryBatch (ε : Type) where
  Entries : Slice ε

/-- The zero value `pb.EntryBatch{}`, which a failed map lookup yields. -/
def EntryBatch.zero {ε : Type} : EntryBatch ε := ⟨Slice.nil⟩

/-- Modelled from the spec: the type `pb.State` of package `raftpb`, which is
not among the sources.  The spec describes the persistent state as the durable
voting state (term, vote-for). -/
structure State where
  Term : Nat
  Vote : Nat
deriving DecidableEq, Repr

/-- Modelled from the spec: the function `pb.IsStateEqual` of package `raftpb`,
which is not among the sources.  The spec describes it as the semantic,
field-wise equality of (term, vote). -/
def IsStateEqual (a b : State) : Bool :=
  a.Term == b.Term && a.Vote == b.Vote

/-! ## The cache -/

/-- The struct `cache` without its mutex.  The state type `σ` stands for
`pb.State` and the entry type `ε` for `pb.Entry`. -/
structure cache (σ ε : Type) where
  nodeInfo : GoMap Unit
  ps : GoMap σ
  lastEntryBatch : GoMap (EntryBatch ε)
  maxIndex : GoMap Nat
  snapshotIndex : GoMap Nat

/-- The constructor `newCache`: five empty maps. -/
def newCache {σ ε : Type} : cache σ ε :=
  { nodeInfo := GoMap.empty
    ps := GoMap.empty
    lastEntryBatch := GoMap.empty
    maxIndex := GoMap.empty
    snapshotIndex := GoMap.empty }

section methods

variable {σ ε : Type}

/-- The method `setNodeInfo`: the state afterwards and the returned flag. -/
def cache.setNodeInfo (r : cache σ ε) (shardID replicaID : Nat) :
    cache σ ε × Bool :=
  let key : NodeInfo := { ShardID := shardID, ReplicaID := replicaID }
  match r.nodeInfo key with
  | none => ({ r with nodeInfo := r.nodeInfo.store key () }, true)
  | some _ => (r, false)

/-- The method `setState`.  The equality check `pb.IsStateEqual` is the
parameter `isStateEqual`. -/
def cache.setState (isStateEqual : σ → σ → Bool) (r : cache σ ε)
    (shardID replicaID : Nat) (st : σ) : cache σ ε × Bool :=
  let key : NodeInfo := { ShardID := shardID, ReplicaID := replicaID }
  match r.ps key with
  | none => ({ r with ps := r.ps.store key st }, true)
  | some v =>
    if isStateEqual v st then (r, false)
    else ({ r with ps := r.ps.store key st }, true)

/-- The method `setSnapshotIndex`. -/
def cache.setSnapshotIndex (r : cache σ ε) (shardID replicaID index : Nat) :
    cache σ ε :=
  let key : NodeInfo := { ShardID := shardID, ReplicaID := replicaID }
  { r with snapshotIndex := r.snapshotIndex.store key index }

/-- The method `trySaveSnapshot`. -/
def cache.trySaveSnapshot (r : cache σ ε) (shardID replicaID index : Nat) :
    cache σ ε × Bool :=
  let key : NodeInfo := { ShardID := shardID, ReplicaID := replicaID }
  match r.snapshotIndex key with
  | none => ({ r with snapshotIndex := r.snapshotIndex.store key index }, true)
  | some v => (r, decide (index > v))

/-- The method `setMaxIndex`. -/
def cache.setMaxIndex (r : cache σ ε) (shardID replicaID maxIndex : Nat) :
    cache σ ε :=
  let key : NodeInfo := { ShardID := shardID, ReplicaID := replicaID }
  { r with maxIndex := r.maxIndex.store key maxIndex }

/-- The method `getMaxIndex`: the state afterwards and the returned pair. -/
def cache.getMaxIndex (r : cache σ ε) (shardID replicaID : Nat) :
    cache σ ε × (Nat × Bool) :=
  let key : NodeInfo := { ShardID := shardID, ReplicaID := replicaID }
  match r.maxIndex key with
  | none => (r, (0, false))
  | some v => (r, (v, true))

/-- The method `setLastBatch`.  `zero` is the zero value of `pb.Entry` and
`growSlack` the growth policy of `append`. -/
def cache.setLastBatch (zero : ε) (growSlack : Nat → Nat → Nat) (r : cache σ ε)
    (shardID replicaID : Nat) (eb : EntryBatch ε) : cache σ ε :=
  let key : NodeInfo := { ShardID := shardID, ReplicaID := replicaID }
  let oeb : EntryBatch ε :=
    match r.lastEntryBatch key with
    | none => { Entries := Slice.make zero eb.Entries.len }
    | some oeb => { oeb with Entries := oeb.Entries.reslice0 }
  let oeb : EntryBatch ε :=
    { oeb with Entries := oeb.Entries.append zero growSlack eb.Entries.toList }
  { r with lastEntryBatch := r.lastEntryBatch.store key oeb }

/-- The method `getLastBatch`: the state afterwards and the returned pair. -/
def cache.getLastBatch (zero : ε) (growSlack : Nat → Nat → Nat) (r : cache σ ε)
    (shardID replicaID : Nat) (lb : EntryBatch ε) :
    cache σ ε × (EntryBatch ε × Bool) :=
  let key : NodeInfo := { ShardID := shardID, ReplicaID := replicaID }
  match r.lastEntryBatch key with
  | none => (r, (EntryBatch.zero, false))
  | some v =>
    let lb : EntryBatch ε := { lb with Entries := lb.Entries.reslice0 }
    let lb : EntryBatch ε :=
      { lb with Entries := lb.Entries.append zero growSlack v.Entries.toList }
    (r, (lb, true))

end methods

/-! ## Sequences of calls -/

/-- One call of a method of the cache, with its arguments. -/
inductive Op (σ ε : Type) where
  | setNodeInfo (shardID replicaID : Nat)
  | setState (shardID replicaID : Nat) (st : σ)
  | setSnapshotIndex (shardID replicaID index : Nat)
  | trySaveSnapshot (shardID replicaID index : Nat)
  | setMaxIndex (shardID replicaID maxIndex : Nat)
  | getMaxIndex (shardID replicaID : Nat)
  | setLastBatch (shardID replicaID : Nat) (eb : EntryBatch ε)
  | getLastBatch (shardID replicaID : Nat) (lb : EntryBatch ε)

/-- What a call returns. -/
inductive Ret (ε : Type) where
  | none
  | flag (b : Bool)
  | index (v : Nat) (ok : Bool)
  | batch (eb : EntryBatch ε) (ok : Bool)

section calls

variable {σ ε : Type} (isStateEqual : σ → σ → Bool) (zero : ε)
  (growSlack : Nat → Nat → Nat)

/-- One call: the state afterwards and the returned value. -/
def exec (r : cache σ ε) : Op σ ε → cache σ ε × Ret ε
  | .setNodeInfo g n => ((r.setNodeInfo g n).1, .flag (r.setNodeInfo g n).2)
  | .setState g n st =>
    ((r.setState isStateEqual g n st).1, .flag (r.setState isStateEqual g n st).2)
  | .setSnapshotIndex g n i => (r.setSnapshotIndex g n i, .none)
  | .trySaveSnapshot g n i =>
    ((r.trySaveSnapshot g n i).1, .flag (r.trySaveSnapshot g n i).2)
  | .setMaxIndex g n i => (r.setMaxIndex g n i, .none)
  | .getMaxIndex g n =>
    ((r.getMaxIndex g n).1, .index (r.getMaxIndex g n).2.1 (r.getMaxIndex g n).2.2)
  | .setLastBatch g n eb => (r.setLastBatch zero growSlack g n eb, .none)
  | .getLastBatch g n lb =>
    ((r.getLastBatch zero growSlack g n lb).1,
      .batch (r.getLastBatch zero growSlack g n lb).2.1
        (r.getLastBatch zero growSlack g n lb).2.2)

/-- The state after a sequence of calls made one after the other. -/
def run (r : cache σ ε) : List (Op σ ε) → cache σ ε
  | [] => r
  | op :: ops => run (exec isStateEqual zero growSlack r op).1 ops

/-- The values returned by a sequence of calls, in the order of the calls. -/
def results (r : cache σ ε) : List (Op σ ε) → List (Ret ε)
  | [] => []
  | op :: ops =>
    (exec isStateEqual zero growSlack r op).2 ::
      results (exec isStateEqual zero growSlack r op).1 ops

end calls

/-! ## Keys of calls and the check-then-commit discipline -/

/-- The key `raftio.NodeInfo{ShardID: shardID, ReplicaID: replicaID}` that a
call builds from its first two arguments. -/
def Op.key {σ ε : Type} : Op σ ε → NodeInfo
  | .setNodeInfo g n => ⟨g, n⟩
  | .setState g n _ => ⟨g, n⟩
  | .setSnapshotIndex g n _ => ⟨g, n⟩
  | .trySaveSnapshot g n _ => ⟨g, n⟩
  | .setMaxIndex g n _ => ⟨g, n⟩
  | .getMaxIndex g n => ⟨g, n⟩
  | .setLastBatch g n _ => ⟨g, n⟩
  | .getLastBatch g n _ => ⟨g, n⟩

/-- Bookkeeping of the check-then-commit discipline for the key `(g, n)`.
`pending` is `some M` when the last snapshot call on the key was a
`trySaveSnapshot(g, n, M)` that returned true.  The result is `none` when the
call `op` breaks the discipline, that is when it is a `setSnapshotIndex(g, n, i)`
with no such pending check of the same index; otherwise it is the pending
check after the call.  Calls on other keys and calls of other methods keep the
pending check. -/
def pendingAfter {σ ε : Type} (g n : Nat) (r : cache σ ε) (pending : Option Nat) :
    Op σ ε → Option (Option Nat)
  | .setSnapshotIndex g1 n1 i =>
    if g1 = g ∧ n1 = n then
      if pending = some i then some none else none
    else some pending
  | .trySaveSnapshot g1 n1 i =>
    if g1 = g ∧ n1 = n then
      some (if (r.trySaveSnapshot g1 n1 i).2 = true then some i else none)
    else some pending
  | _ => some pending

/-- A sequence of calls, made from the state `r` with the pending check
`pending`, follows the check-then-commit discipline for the key `(g, n)`. -/
def disciplined {σ ε : Type} (isStateEqual : σ → σ → Bool) (zero : ε)
    (growSlack : Nat → Nat → Nat) (g n : Nat) :
    cache σ ε → Option Nat → List (Op σ ε) → Bool
  | _, _, [] => true
  | r, pending, op :: ops =>
    match pendingAfter g n r pending op with
    | none => false
    | some p => disciplined isStateEqual zero growSlack g n
        (exec isStateEqual zero growSlack r op).1 p ops

/-! ## Lemmas on maps, slices and call sequences -/

section lemmas

variable {σ ε : Type}

theorem GoMap.store_same {V : Type} (m : GoMap V) (key : NodeInfo) (v : V) :
    m.store key v key = some v := by
  simp [GoMap.store]

theorem GoMap.store_other {V : Type} (m : GoMap V) (key k : NodeInfo) (v : V)
    (h : k ≠ key) : m.store key v k = m k := by
  simp [GoMap.store, h]

theorem Slice.toList_append {α : Type} (zero : α) (growSlack : Nat → Nat → Nat)
    (s : Slice α) (xs : List α) :
    (s.append zero growSlack xs).toList = s.toList ++ xs := by
  have hl : (List.take s.len s.arr).length = s.len := by
    rw [List.length_take]; exact Nat.min_eq_left s.hlen
  unfold Slice.append Slice.toList
  split
  · simp only [List.append_assoc]
    rw [← List.append_assoc, List.take_append_eq_append_take]
    simp [hl]
  · simp only [List.append_assoc]
    rw [← List.append_assoc, List.take_append_eq_append_take]
    simp [hl]

theorem Slice.len_append {α : Type} (zero : α) (growSlack : Nat → Nat → Nat)
    (s : Slice α) (xs : List α) :
    (s.append zero growSlack xs).len = s.len + xs.length := by
  unfold Slice.append
  split <;> rfl

theorem Slice.toList_reslice0 {α : Type} (s : Slice α) : s.reslice0.toList = [] := by
  simp [Slice.reslice0, Slice.toList]

theorem Slice.toList_make {α : Type} (zero : α) (n : Nat) :
    (Slice.make zero n).toList = [] := by
  simp [Slice.make, Slice.toList]

theorem cache.setState_of_absent (isStateEqual : σ → σ → Bool) (r : cache σ ε)
    (g n : Nat) (st : σ) (h : r.ps ⟨g, n⟩ = none) :
    r.setState isStateEqual g n st = ({ r with ps := r.ps.store ⟨g, n⟩ st }, true) := by
  simp [cache.setState, h]

theorem cache.setState_of_equal (isStateEqual : σ → σ → Bool) (r : cache σ ε)
    (g n : Nat) (st v : σ) (h : r.ps ⟨g, n⟩ = some v)
    (he : isStateEqual v st = true) :
    r.setState isStateEqual g n st = (r, false) := by
  simp [cache.setState, h, he]

theorem cache.setState_of_differs (isStateEqual : σ → σ → Bool) (r : cache σ ε)
    (g n : Nat) (st v : σ) (h : r.ps ⟨g, n⟩ = some v)
    (he : isStateEqual v st = false) :
    r.setState isStateEqual g n st = ({ r with ps := r.ps.store ⟨g, n⟩ st }, true) := by
  simp [cache.setState, h, he]

theorem cache.trySaveSnapshot_of_absent (r : cache σ ε) (g n i : Nat)
    (h : r.snapshotIndex ⟨g, n⟩ = none) :
    r.trySaveSnapshot g n i =
      ({ r with snapshotIndex := r.snapshotIndex.store ⟨g, n⟩ i }, true) := by
  simp [cache.trySaveSnapshot, h]

theorem cache.trySaveSnapshot_of_present (r : cache σ ε) (g n i b : Nat)
    (h : r.snapshotIndex ⟨g, n⟩ = some b) :
    r.trySaveSnapshot g n i = (r, decide (i > b)) := by
  simp [cache.trySaveSnapshot, h]

theorem cache.getLastBatch_of_absent (zero : ε) (growSlack : Nat → Nat → Nat)
    (r : cache σ ε) (g n : Nat) (lb : EntryBatch ε)
    (h : r.lastEntryBatch ⟨g, n⟩ = none) :
    r.getLastBatch zero growSlack g n lb = (r, (EntryBatch.zero, false)) := by
  simp [cache.getLastBatch, h]

theorem cache.getLastBatch_of_present (zero : ε) (growSlack : Nat → Nat → Nat)
    (r : cache σ ε) (g n : Nat) (lb v : EntryBatch ε)
    (h : r.lastEntryBatch ⟨g, n⟩ = some v) :
    r.getLastBatch zero growSlack g n lb =
      (r, ({ Entries := lb.Entries.reslice0.append zero growSlack v.Entries.toList },
        true)) := by
  simp [cache.getLastBatch, h]

theorem cache.setLastBatch_lookup (zero : ε) (growSlack : Nat → Nat → Nat)
    (r : cache σ ε) (g n : Nat) (eb : EntryBatch ε) :
    ∃ v, (r.setLastBatch zero growSlack g n eb).lastEntryBatch ⟨g, n⟩ = some v ∧
      v.Entries.toList = eb.Entries.toList := by
  cases h : r.lastEntryBatch ⟨g, n⟩ with
  | none =>
    refine ⟨_, by simp only [cache.setLastBatch, h]; exact GoMap.store_same _ _ _, ?_⟩
    simp [Slice.toList_append, Slice.toList_make]
  | some oeb =>
    refine ⟨_, by simp only [cache.setLastBatch, h]; exact GoMap.store_same _ _ _, ?_⟩
    simp [Slice.toList_append, Slice.toList_reslice0]

theorem exec_nodeInfo_eq_none_iff (isStateEqual : σ → σ → Bool) (zero : ε)
    (growSlack : Nat → Nat → Nat) (r : cache σ ε) (op : Op σ ε) (k : NodeInfo) :
    (exec isStateEqual zero growSlack r op).1.nodeInfo k = none ↔
      r.nodeInfo k = none ∧ op ≠ Op.setNodeInfo k.ShardID k.ReplicaID := by
  cases op with
  | setNodeInfo g n =>
    simp only [exec, cache.setNodeInfo]
    by_cases hk : k = ⟨g, n⟩
    · subst hk
      cases h : r.nodeInfo ⟨g, n⟩ <;> simp [h, GoMap.store]
    · have hne : ¬ (g = k.ShardID ∧ n = k.ReplicaID) := by
        rintro ⟨rfl, rfl⟩; exact hk rfl
      cases h : r.nodeInfo ⟨g, n⟩ <;> simp [GoMap.store, hk, hne]
  | setState g n st =>
    simp only [exec, cache.setState]
    cases h : r.ps ⟨g, n⟩ with
    | none => simp
    | some v => cases he : isStateEqual v st <;> simp [he]
  | setSnapshotIndex g n i => simp [exec, cache.setSnapshotIndex]
  | trySaveSnapshot g n i =>
    simp only [exec, cache.trySaveSnapshot]
    cases h : r.snapshotIndex ⟨g, n⟩ <;> simp
  | setMaxIndex g n i => simp [exec, cache.setMaxIndex]
  | getMaxIndex g n =>
    simp only [exec, cache.getMaxIndex]
    cases h : r.maxIndex ⟨g, n⟩ <;> simp
  | setLastBatch g n eb => simp [exec, cache.setLastBatch]
  | getLastBatch g n lb =>
    simp only [exec, cache.getLastBatch]
    cases h : r.lastEntryBatch ⟨g, n⟩ <;> simp

theorem run_nodeInfo_eq_none_iff (isStateEqual : σ → σ → Bool) (zero : ε)
    (growSlack : Nat → Nat → Nat) (ops : List (Op σ ε)) (r : cache σ ε)
    (k : NodeInfo) :
    (run isStateEqual zero growSlack r ops).nodeInfo k = none ↔
      r.nodeInfo k = none ∧ ∀ op ∈ ops, op ≠ Op.setNodeInfo k.ShardID k.ReplicaID := by
  induction ops generalizing r with
  | nil => simp [run]
  | cons op ops ih =>
    rw [run, ih, exec_nodeInfo_eq_none_iff]
    simp [and_assoc]

theorem results_getElem_length (isStateEqual : σ → σ → Bool) (zero : ε)
    (growSlack : Nat → Nat → Nat) (pre post : List (Op σ ε)) (op : Op σ ε)
    (r : cache σ ε) :
    (results isStateEqual zero growSlack r (pre ++ op :: post))[pre.length]? =
      some (exec isStateEqual zero growSlack
        (run isStateEqual zero growSlack r pre) op).2 := by
  induction pre generalizing r with
  | nil => simp [results, run]
  | cons p pre ih => simpa [results, run] using ih _

theorem exec_maxIndex_eq_none_iff (isStateEqual : σ → σ → Bool) (zero : ε)
    (growSlack : Nat → Nat → Nat) (r : cache σ ε) (op : Op σ ε) (k : NodeInfo) :
    (exec isStateEqual zero growSlack r op).1.maxIndex k = none ↔
      r.maxIndex k = none ∧ ∀ i, op ≠ Op.setMaxIndex k.ShardID k.ReplicaID i := by
  cases op with
  | setNodeInfo g n =>
    simp only [exec, cache.setNodeInfo]
    cases h : r.nodeInfo ⟨g, n⟩ <;> simp
  | setState g n st =>
    simp only [exec, cache.setState]
    cases h : r.ps ⟨g, n⟩ with
    | none => simp
    | some v => cases he : isStateEqual v st <;> simp [he]
  | setSnapshotIndex g n i => simp [exec, cache.setSnapshotIndex]
  | trySaveSnapshot g n i =>
    simp only [exec, cache.trySaveSnapshot]
    cases h : r.snapshotIndex ⟨g, n⟩ <;> simp
  | setMaxIndex g n i =>
    simp only [exec, cache.setMaxIndex]
    by_cases hk : k = ⟨g, n⟩
    · subst hk
      simp [GoMap.store]
    · have hne : ¬ (g = k.ShardID ∧ n = k.ReplicaID) := by
        rintro ⟨rfl, rfl⟩; exact hk rfl
      simp only [GoMap.store, hk, if_false]
      constructor
      · intro h
        refine ⟨h, fun j hj => hne ?_⟩
        injection hj with h1 h2 h3
        exact ⟨h1, h2⟩
      · exact fun h => h.1
  | getMaxIndex g n =>
    simp only [exec, cache.getMaxIndex]
    cases h : r.maxIndex ⟨g, n⟩ <;> simp
  | setLastBatch g n eb => simp [exec, cache.setLastBatch]
  | getLastBatch g n lb =>
    simp only [exec, cache.getLastBatch]
    cases h : r.lastEntryBatch ⟨g, n⟩ <;> simp

theorem run_maxIndex_eq_none_iff (isStateEqual : σ → σ → Bool) (zero : ε)
    (growSlack : Nat → Nat → Nat) (ops : List (Op σ ε)) (r : cache σ ε)
    (k : NodeInfo) :
    (run isStateEqual zero growSlack r ops).maxIndex k = none ↔
      r.maxIndex k = none ∧
        ∀ op ∈ ops, ∀ i, op ≠ Op.setMaxIndex k.ShardID k.ReplicaID i := by
  induction ops generalizing r with
  | nil => simp [run]
  | cons op ops ih =>
    rw [run, ih, exec_maxIndex_eq_none_iff]
    simp [and_assoc]

theorem cache.getMaxIndex_state (r : cache σ ε) (g n : Nat) :
    (r.getMaxIndex g n).1 = r := by
  cases h : r.maxIndex ⟨g, n⟩ <;> simp [cache.getMaxIndex, h]

theorem cache.getLastBatch_state (zero : ε) (growSlack : Nat → Nat → Nat)
    (r : cache σ ε) (g n : Nat) (lb : EntryBatch ε) :
    (r.getLastBatch zero growSlack g n lb).1 = r := by
  cases h : r.lastEntryBatch ⟨g, n⟩ <;> simp [cache.getLastBatch, h]

theorem run_trySaveSnapshot_baseline (isStateEqual : σ → σ → Bool) (zero : ε)
    (growSlack : Nat → Nat → Nat) (g n b : Nat) (indexes : List Nat)
    (r : cache σ ε) (h : r.snapshotIndex ⟨g, n⟩ = some b) :
    run isStateEqual zero growSlack r (indexes.map (Op.trySaveSnapshot g n)) = r := by
  induction indexes with
  | nil => rfl
  | cons i rest ih =>
    simp only [List.map_cons, run, exec]
    rw [cache.trySaveSnapshot_of_present r g n i b h]
    exact ih

theorem GoMap.store_ne_none {V : Type} (m : GoMap V) (key k : NodeInfo) (v : V)
    (h : m k ≠ none) : m.store key v k ≠ none := by
  unfold GoMap.store
  split
  · exact Option.some_ne_none v
  · exact h

theorem cache.setNodeInfo_frame (r : cache σ ε) (g n : Nat) :
    (r.setNodeInfo g n).1.ps = r.ps ∧
    (r.setNodeInfo g n).1.lastEntryBatch = r.lastEntryBatch ∧
    (r.setNodeInfo g n).1.maxIndex = r.maxIndex ∧
    (r.setNodeInfo g n).1.snapshotIndex = r.snapshotIndex := by
  cases h : r.nodeInfo ⟨g, n⟩ <;> simp [cache.setNodeInfo, h]

theorem cache.setState_frame (isStateEqual : σ → σ → Bool) (r : cache σ ε)
    (g n : Nat) (st : σ) :
    (r.setState isStateEqual g n st).1.nodeInfo = r.nodeInfo ∧
    (r.setState isStateEqual g n st).1.lastEntryBatch = r.lastEntryBatch ∧
    (r.setState isStateEqual g n st).1.maxIndex = r.maxIndex ∧
    (r.setState isStateEqual g n st).1.snapshotIndex = r.snapshotIndex := by
  cases h : r.ps ⟨g, n⟩ with
  | none => simp [cache.setState, h]
  | some v => cases he : isStateEqual v st <;> simp [cache.setState, h, he]

theorem cache.trySaveSnapshot_frame (r : cache σ ε) (g n i : Nat) :
    (r.trySaveSnapshot g n i).1.nodeInfo = r.nodeInfo ∧
    (r.trySaveSnapshot g n i).1.ps = r.ps ∧
    (r.trySaveSnapshot g n i).1.lastEntryBatch = r.lastEntryBatch ∧
    (r.trySaveSnapshot g n i).1.maxIndex = r.maxIndex := by
  cases h : r.snapshotIndex ⟨g, n⟩ <;> simp [cache.trySaveSnapshot, h]

theorem cache.setNodeInfo_nodeInfo (r : cache σ ε) (g n : Nat) (k : NodeInfo) :
    (r.setNodeInfo g n).1.nodeInfo k = r.nodeInfo k ∨
      (k = ⟨g, n⟩ ∧ (r.setNodeInfo g n).1.nodeInfo k = some ()) := by
  cases h : r.nodeInfo ⟨g, n⟩ with
  | none =>
    simp only [cache.setNodeInfo, h, GoMap.store]
    by_cases hk : k = ⟨g, n⟩
    · exact Or.inr ⟨hk, by simp [hk]⟩
    · exact Or.inl (by simp [hk])
  | some u => exact Or.inl (by simp [cache.setNodeInfo, h])

theorem cache.setState_ps (isStateEqual : σ → σ → Bool) (r : cache σ ε)
    (g n : Nat) (st : σ) (k : NodeInfo) :
    (r.setState isStateEqual g n st).1.ps k = r.ps k ∨
      (k = ⟨g, n⟩ ∧ (r.setState isStateEqual g n st).1.ps k = some st) := by
  have hstore : (r.ps.store ⟨g, n⟩ st) k = r.ps k ∨
      (k = ⟨g, n⟩ ∧ (r.ps.store ⟨g, n⟩ st) k = some st) := by
    by_cases hk : k = ⟨g, n⟩
    · exact Or.inr ⟨hk, by simp [GoMap.store, hk]⟩
    · exact Or.inl (by simp [GoMap.store, hk])
  cases h : r.ps ⟨g, n⟩ with
  | none => simpa [cache.setState, h] using hstore
  | some v =>
    cases he : isStateEqual v st with
    | true => exact Or.inl (by simp [cache.setState, h, he])
    | false => simpa [cache.setState, h, he] using hstore

theorem cache.trySaveSnapshot_snapshotIndex (r : cache σ ε) (g n i : Nat)
    (k : NodeInfo) :
    (r.trySaveSnapshot g n i).1.snapshotIndex k = r.snapshotIndex k ∨
      (k = ⟨g, n⟩ ∧ (r.trySaveSnapshot g n i).1.snapshotIndex k = some i) := by
  cases h : r.snapshotIndex ⟨g, n⟩ with
  | none =>
    simp only [cache.trySaveSnapshot, h, GoMap.store]
    by_cases hk : k = ⟨g, n⟩
    · exact Or.inr ⟨hk, by simp [hk]⟩
    · exact Or.inl (by simp [hk])
  | some v => exact Or.inl (by simp [cache.trySaveSnapshot, h])

theorem GoMap.store_lookup {V : Type} (m : GoMap V) (key k : NodeInfo) (v : V) :
    m.store key v k = m k ∨ (k = key ∧ m.store key v k = some v) := by
  by_cases hk : k = key
  · exact Or.inr ⟨hk, by simp [GoMap.store, hk]⟩
  · exact Or.inl (by simp [GoMap.store, hk])

theorem exec_lookup (isStateEqual : σ → σ → Bool) (zero : ε)
    (growSlack : Nat → Nat → Nat) (r : cache σ ε) (op : Op σ ε) (k : NodeInfo) :
    ((exec isStateEqual zero growSlack r op).1.nodeInfo k = r.nodeInfo k ∨
      (k = op.key ∧ (exec isStateEqual zero growSlack r op).1.nodeInfo k ≠ none)) ∧
    ((exec isStateEqual zero growSlack r op).1.ps k = r.ps k ∨
      (k = op.key ∧ (exec isStateEqual zero growSlack r op).1.ps k ≠ none)) ∧
    ((exec isStateEqual zero growSlack r op).1.lastEntryBatch k = r.lastEntryBatch k ∨
      (k = op.key ∧
        (exec isStateEqual zero growSlack r op).1.lastEntryBatch k ≠ none)) ∧
    ((exec isStateEqual zero growSlack r op).1.maxIndex k = r.maxIndex k ∨
      (k = op.key ∧ (exec isStateEqual zero growSlack r op).1.maxIndex k ≠ none)) ∧
    ((exec isStateEqual zero growSlack r op).1.snapshotIndex k = r.snapshotIndex k ∨
      (k = op.key ∧
        (exec isStateEqual zero growSlack r op).1.snapshotIndex k ≠ none)) := by
  cases op with
  | setNodeInfo g n =>
    obtain ⟨h1, h2, h3, h4⟩ := cache.setNodeInfo_frame r g n
    refine ⟨?_, Or.inl (by simp [exec, h1]), Or.inl (by simp [exec, h2]),
      Or.inl (by simp [exec, h3]), Or.inl (by simp [exec, h4])⟩
    rcases cache.setNodeInfo_nodeInfo r g n k with h | ⟨hk, h⟩
    · exact Or.inl h
    · exact Or.inr ⟨hk, by simp [exec, h]⟩
  | setState g n st =>
    obtain ⟨h1, h2, h3, h4⟩ := cache.setState_frame isStateEqual r g n st
    refine ⟨Or.inl (by simp [exec, h1]), ?_, Or.inl (by simp [exec, h2]),
      Or.inl (by simp [exec, h3]), Or.inl (by simp [exec, h4])⟩
    rcases cache.setState_ps isStateEqual r g n st k with h | ⟨hk, h⟩
    · exact Or.inl h
    · exact Or.inr ⟨hk, by simp [exec, h]⟩
  | setSnapshotIndex g n i =>
    refine ⟨Or.inl rfl, Or.inl rfl, Or.inl rfl, Or.inl rfl, ?_⟩
    rcases GoMap.store_lookup r.snapshotIndex ⟨g, n⟩ k i with h | ⟨hk, h⟩
    · exact Or.inl h
    · exact Or.inr ⟨hk, by simp [exec, cache.setSnapshotIndex, h]⟩
  | trySaveSnapshot g n i =>
    obtain ⟨h1, h2, h3, h4⟩ := cache.trySaveSnapshot_frame r g n i
    refine ⟨Or.inl (by simp [exec, h1]), Or.inl (by simp [exec, h2]),
      Or.inl (by simp [exec, h3]), Or.inl (by simp [exec, h4]), ?_⟩
    rcases cache.trySaveSnapshot_snapshotIndex r g n i k with h | ⟨hk, h⟩
    · exact Or.inl h
    · exact Or.inr ⟨hk, by simp [exec, h]⟩
  | setMaxIndex g n i =>
    refine ⟨Or.inl rfl, Or.inl rfl, Or.inl rfl, ?_, Or.inl rfl⟩
    rcases GoMap.store_lookup r.maxIndex ⟨g, n⟩ k i with h | ⟨hk, h⟩
    · exact Or.inl h
    · exact Or.inr ⟨hk, by simp [exec, cache.setMaxIndex, h]⟩
  | getMaxIndex g n =>
    simp [exec, cache.getMaxIndex_state]
  | setLastBatch g n eb =>
    refine ⟨Or.inl rfl, Or.inl rfl, ?_, Or.inl rfl, Or.inl rfl⟩
    by_cases hk : k = ⟨g, n⟩
    · refine Or.inr ⟨hk, ?_⟩
      subst hk
      obtain ⟨v, hv, _⟩ := cache.setLastBatch_lookup zero growSlack r g n eb
      simp [exec, hv]
    · exact Or.inl (by simp [exec, cache.setLastBatch, GoMap.store, hk])
  | getLastBatch g n lb =>
    simp [exec, cache.getLastBatch_state]

theorem exec_other_key (isStateEqual : σ → σ → Bool) (zero : ε)
    (growSlack : Nat → Nat → Nat) (r : cache σ ε) (op : Op σ ε) (k : NodeInfo)
    (hk : op.key ≠ k) :
    (exec isStateEqual zero growSlack r op).1.nodeInfo k = r.nodeInfo k ∧
    (exec isStateEqual zero growSlack r op).1.ps k = r.ps k ∧
    (exec isStateEqual zero growSlack r op).1.lastEntryBatch k = r.lastEntryBatch k ∧
    (exec isStateEqual zero growSlack r op).1.maxIndex k = r.maxIndex k ∧
    (exec isStateEqual zero growSlack r op).1.snapshotIndex k = r.snapshotIndex k := by
  obtain ⟨h1, h2, h3, h4, h5⟩ := exec_lookup isStateEqual zero growSlack r op k
  have hne : ∀ {P : Prop}, (k = op.key ∧ P) → False := fun h => hk h.1.symm
  exact ⟨h1.resolve_right hne, h2.resolve_right hne, h3.resolve_right hne,
    h4.resolve_right hne, h5.resolve_right hne⟩

theorem exec_present (isStateEqual : σ → σ → Bool) (zero : ε)
    (growSlack : Nat → Nat → Nat) (r : cache σ ε) (op : Op σ ε) (k : NodeInfo) :
    (r.nodeInfo k ≠ none → (exec isStateEqual zero growSlack r op).1.nodeInfo k ≠ none) ∧
    (r.ps k ≠ none → (exec isStateEqual zero growSlack r op).1.ps k ≠ none) ∧
    (r.lastEntryBatch k ≠ none →
      (exec isStateEqual zero growSlack r op).1.lastEntryBatch k ≠ none) ∧
    (r.maxIndex k ≠ none → (exec isStateEqual zero growSlack r op).1.maxIndex k ≠ none) ∧
    (r.snapshotIndex k ≠ none →
      (exec isStateEqual zero growSlack r op).1.snapshotIndex k ≠ none) := by
  obtain ⟨h1, h2, h3, h4, h5⟩ := exec_lookup isStateEqual zero growSlack r op k
  refine ⟨fun h => ?_, fun h => ?_, fun h => ?_, fun h => ?_, fun h => ?_⟩
  · rcases h1 with e | ⟨_, e⟩
    · rw [e]; exact h
    · exact e
  · rcases h2 with e | ⟨_, e⟩
    · rw [e]; exact h
    · exact e
  · rcases h3 with e | ⟨_, e⟩
    · rw [e]; exact h
    · exact e
  · rcases h4 with e | ⟨_, e⟩
    · rw [e]; exact h
    · exact e
  · rcases h5 with e | ⟨_, e⟩
    · rw [e]; exact h
    · exact e

theorem run_present (isStateEqual : σ → σ → Bool) (zero : ε)
    (growSlack : Nat → Nat → Nat) (ops : List (Op σ ε)) (r : cache σ ε)
    (k : NodeInfo) :
    (r.nodeInfo k ≠ none → (run isStateEqual zero growSlack r ops).nodeInfo k ≠ none) ∧
    (r.ps k ≠ none → (run isStateEqual zero growSlack r ops).ps k ≠ none) ∧
    (r.lastEntryBatch k ≠ none →
      (run isStateEqual zero growSlack r ops).lastEntryBatch k ≠ none) ∧
    (r.maxIndex k ≠ none → (run isStateEqual zero growSlack r ops).maxIndex k ≠ none) ∧
    (r.snapshotIndex k ≠ none →
      (run isStateEqual zero growSlack r ops).snapshotIndex k ≠ none) := by
  induction ops generalizing r with
  | nil => exact ⟨id, id, id, id, id⟩
  | cons op ops ih =>
    obtain ⟨e1, e2, e3, e4, e5⟩ := exec_present isStateEqual zero growSlack r op k
    obtain ⟨i1, i2, i3, i4, i5⟩ := ih (exec isStateEqual zero growSlack r op).1
    exact ⟨fun h => i1 (e1 h), fun h => i2 (e2 h), fun h => i3 (e3 h),
      fun h => i4 (e4 h), fun h => i5 (e5 h)⟩

theorem exec_ret_congr (isStateEqual : σ → σ → Bool) (zero : ε)
    (growSlack : Nat → Nat → Nat) (r1 r2 : cache σ ε) (q : Op σ ε)
    (h1 : r1.nodeInfo q.key = r2.nodeInfo q.key)
    (h2 : r1.ps q.key = r2.ps q.key)
    (h3 : r1.lastEntryBatch q.key = r2.lastEntryBatch q.key)
    (h4 : r1.maxIndex q.key = r2.maxIndex q.key)
    (h5 : r1.snapshotIndex q.key = r2.snapshotIndex q.key) :
    (exec isStateEqual zero growSlack r1 q).2 =
      (exec isStateEqual zero growSlack r2 q).2 := by
  cases q with
  | setNodeInfo g n =>
    simp only [Op.key] at h1
    simp only [exec, cache.setNodeInfo, h1]
    cases r2.nodeInfo ⟨g, n⟩ <;> rfl
  | setState g n st =>
    simp only [Op.key] at h2
    simp only [exec, cache.setState, h2]
    cases r2.ps ⟨g, n⟩ with
    | none => rfl
    | some v => cases he : isStateEqual v st <;> simp [he]
  | setSnapshotIndex g n i => rfl
  | trySaveSnapshot g n i =>
    simp only [Op.key] at h5
    simp only [exec, cache.trySaveSnapshot, h5]
    cases r2.snapshotIndex ⟨g, n⟩ <;> rfl
  | setMaxIndex g n i => rfl
  | getMaxIndex g n =>
    simp only [Op.key] at h4
    simp only [exec, cache.getMaxIndex, h4]
    cases r2.maxIndex ⟨g, n⟩ <;> rfl
  | setLastBatch g n eb => rfl
  | getLastBatch g n lb =>
    simp only [Op.key] at h3
    simp only [exec, cache.getLastBatch, h3]
    cases r2.lastEntryBatch ⟨g, n⟩ <;> rfl

theorem run_append (isStateEqual : σ → σ → Bool) (zero : ε)
    (growSlack : Nat → Nat → Nat) (xs ys : List (Op σ ε)) (r : cache σ ε) :
    run isStateEqual zero growSlack r (xs ++ ys) =
      run isStateEqual zero growSlack (run isStateEqual zero growSlack r xs) ys := by
  induction xs generalizing r with
  | nil => rfl
  | cons op xs ih => exact ih _

theorem pendingAfter_step (isStateEqual : σ → σ → Bool) (zero : ε)
    (growSlack : Nat → Nat → Nat) (g n : Nat) (r : cache σ ε)
    (p p1 : Option Nat) (op : Op σ ε)
    (hinv : ∀ M, p = some M → ∃ b, r.snapshotIndex ⟨g, n⟩ = some b ∧ b ≤ M)
    (hp : pendingAfter g n r p op = some p1) :
    (∀ M, p1 = some M →
      ∃ b, (exec isStateEqual zero growSlack r op).1.snapshotIndex ⟨g, n⟩ = some b ∧
        b ≤ M) ∧
    (∀ b, r.snapshotIndex ⟨g, n⟩ = some b →
      ∃ b1, (exec isStateEqual zero growSlack r op).1.snapshotIndex ⟨g, n⟩ = some b1 ∧
        b ≤ b1) := by
  have hsame : ∀ (r1 : cache σ ε), r1.snapshotIndex ⟨g, n⟩ = r.snapshotIndex ⟨g, n⟩ →
      p1 = p →
      (∀ M, p1 = some M → ∃ b, r1.snapshotIndex ⟨g, n⟩ = some b ∧ b ≤ M) ∧
      (∀ b, r.snapshotIndex ⟨g, n⟩ = some b →
        ∃ b1, r1.snapshotIndex ⟨g, n⟩ = some b1 ∧ b ≤ b1) := by
    intro r1 h1 hpp
    subst hpp
    rw [h1]
    exact ⟨hinv, fun b hb => ⟨b, hb, Nat.le_refl b⟩⟩
  cases op with
  | setNodeInfo g1 n1 =>
    simp only [pendingAfter, Option.some.injEq] at hp
    exact hsame _ (by simp [exec, (cache.setNodeInfo_frame r g1 n1).2.2.2]) hp.symm
  | setState g1 n1 st =>
    simp only [pendingAfter, Option.some.injEq] at hp
    exact hsame _
      (by simp [exec, (cache.setState_frame isStateEqual r g1 n1 st).2.2.2]) hp.symm
  | setMaxIndex g1 n1 i =>
    simp only [pendingAfter, Option.some.injEq] at hp
    exact hsame _ rfl hp.symm
  | getMaxIndex g1 n1 =>
    simp only [pendingAfter, Option.some.injEq] at hp
    exact hsame _ (by simp [exec, cache.getMaxIndex_state]) hp.symm
  | setLastBatch g1 n1 eb =>
    simp only [pendingAfter, Option.some.injEq] at hp
    exact hsame _ rfl hp.symm
  | getLastBatch g1 n1 lb =>
    simp only [pendingAfter, Option.some.injEq] at hp
    exact hsame _ (by simp [exec, cache.getLastBatch_state]) hp.symm
  | setSnapshotIndex g1 n1 i =>
    by_cases hk : g1 = g ∧ n1 = n
    · obtain ⟨rfl, rfl⟩ := hk
      simp only [pendingAfter, and_self, if_true] at hp
      by_cases hpi : p = some i
      · simp only [hpi, if_true, Option.some.injEq] at hp
        subst hp
        have hafter : (exec isStateEqual zero growSlack r
            (Op.setSnapshotIndex g1 n1 i)).1.snapshotIndex ⟨g1, n1⟩ = some i :=
          GoMap.store_same _ _ _
        refine ⟨fun M hM => Option.noConfusion hM, fun b hb => ⟨i, hafter, ?_⟩⟩
        obtain ⟨b0, hb0, hle⟩ := hinv i hpi
        rw [hb] at hb0
        cases hb0
        exact hle
      · simp [hpi] at hp
    · simp only [pendingAfter, hk, if_false, Option.some.injEq] at hp
      have hne : (Op.setSnapshotIndex g1 n1 i : Op σ ε).key ≠ ⟨g, n⟩ := by
        intro h
        simp only [Op.key, NodeInfo.mk.injEq] at h
        exact hk h
      exact hsame _
        (exec_other_key isStateEqual zero growSlack r _ _ hne).2.2.2.2 hp.symm
  | trySaveSnapshot g1 n1 i =>
    by_cases hk : g1 = g ∧ n1 = n
    · obtain ⟨rfl, rfl⟩ := hk
      simp only [pendingAfter, and_self, if_true, Option.some.injEq] at hp
      cases hs : r.snapshotIndex ⟨g1, n1⟩ with
      | none =>
        rw [cache.trySaveSnapshot_of_absent r g1 n1 i hs] at hp
        simp only [if_true] at hp
        subst hp
        have hafter : (exec isStateEqual zero growSlack r
            (Op.trySaveSnapshot g1 n1 i)).1.snapshotIndex ⟨g1, n1⟩ = some i := by
          simp only [exec]
          rw [cache.trySaveSnapshot_of_absent r g1 n1 i hs]
          exact GoMap.store_same _ _ _
        refine ⟨fun M hM => ?_, fun b hb => Option.noConfusion hb⟩
        cases hM
        exact ⟨i, hafter, Nat.le_refl i⟩
      | some v =>
        rw [cache.trySaveSnapshot_of_present r g1 n1 i v hs] at hp
        have hafter : (exec isStateEqual zero growSlack r
            (Op.trySaveSnapshot g1 n1 i)).1.snapshotIndex ⟨g1, n1⟩ = some v := by
          simp only [exec]
          rw [cache.trySaveSnapshot_of_present r g1 n1 i v hs]
          exact hs
        refine ⟨fun M hM => ?_, fun b hb => ?_⟩
        · by_cases hiv : i > v
          · simp only [hiv, decide_True, if_true] at hp
            rw [← hp] at hM
            cases hM
            exact ⟨v, hafter, Nat.le_of_lt hiv⟩
          · simp only [hiv, decide_False, Bool.false_eq_true, if_false] at hp
            rw [← hp] at hM
            exact Option.noConfusion hM
        · cases hb
          exact ⟨_, hafter, Nat.le_refl _⟩
    · simp only [pendingAfter, hk, if_false, Option.some.injEq] at hp
      have hne : (Op.trySaveSnapshot g1 n1 i : Op σ ε).key ≠ ⟨g, n⟩ := by
        intro h
        simp only [Op.key, NodeInfo.mk.injEq] at h
        exact hk h
      exact hsame _
        (exec_other_key isStateEqual zero growSlack r _ _ hne).2.2.2.2 hp.symm

theorem disciplined_cons (isStateEqual : σ → σ → Bool) (zero : ε)
    (growSlack : Nat → Nat → Nat) (g n : Nat) (r : cache σ ε) (p : Option Nat)
    (op : Op σ ε) (ops : List (Op σ ε))
    (hd : disciplined isStateEqual zero growSlack g n r p (op :: ops) = true) :
    ∃ p1, pendingAfter g n r p op = some p1 ∧
      disciplined isStateEqual zero growSlack g n
        (exec isStateEqual zero growSlack r op).1 p1 ops = true := by
  unfold disciplined at hd
  cases hp : pendingAfter g n r p op with
  | none => simp [hp] at hd
  | some p1 =>
    simp only [hp] at hd
    exact ⟨p1, rfl, hd⟩

theorem disciplined_after (isStateEqual : σ → σ → Bool) (zero : ε)
    (growSlack : Nat → Nat → Nat) (g n : Nat) (pre rest : List (Op σ ε))
    (r : cache σ ε) (p : Option Nat)
    (hinv : ∀ M, p = some M → ∃ b, r.snapshotIndex ⟨g, n⟩ = some b ∧ b ≤ M)
    (hd : disciplined isStateEqual zero growSlack g n r p (pre ++ rest) = true) :
    ∃ p1, (∀ M, p1 = some M →
        ∃ b, (run isStateEqual zero growSlack r pre).snapshotIndex ⟨g, n⟩ = some b ∧
          b ≤ M) ∧
      disciplined isStateEqual zero growSlack g n
        (run isStateEqual zero growSlack r pre) p1 rest = true := by
  induction pre generalizing r p with
  | nil => exact ⟨p, hinv, hd⟩
  | cons op pre ih =>
    obtain ⟨p1, hp, hd1⟩ :=
      disciplined_cons isStateEqual zero growSlack g n r p op (pre ++ rest) hd
    exact ih _ p1
      (pendingAfter_step isStateEqual zero growSlack g n r p p1 op hinv hp).1 hd1

theorem disciplined_baseline_le (isStateEqual : σ → σ → Bool) (zero : ε)
    (growSlack : Nat → Nat → Nat) (g n : Nat) (mid rest : List (Op σ ε))
    (r : cache σ ε) (p : Option Nat) (b : Nat)
    (hinv : ∀ M, p = some M → ∃ b, r.snapshotIndex ⟨g, n⟩ = some b ∧ b ≤ M)
    (hd : disciplined isStateEqual zero growSlack g n r p (mid ++ rest) = true)
    (hb : r.snapshotIndex ⟨g, n⟩ = some b) :
    ∃ b1, (run isStateEqual zero growSlack r mid).snapshotIndex ⟨g, n⟩ = some b1 ∧
      b ≤ b1 := by
  induction mid generalizing r p b with
  | nil => exact ⟨b, hb, Nat.le_refl b⟩
  | cons op mid ih =>
    obtain ⟨p1, hp, hd1⟩ :=
      disciplined_cons isStateEqual zero growSlack g n r p op (mid ++ rest) hd
    obtain ⟨hinv1, hmono⟩ :=
      pendingAfter_step isStateEqual zero growSlack g n r p p1 op hinv hp
    obtain ⟨b1, hb1, hle1⟩ := hmono b hb
    obtain ⟨b2, hb2, hle2⟩ := ih _ p1 b1 hinv1 hd1 hb1
    exact ⟨b2, hb2, Nat.le_trans hle1 hle2⟩

end lemmas

/-! ## Properties of the cache -/

section properties

variable {σ ε : Type}

/-- C1: starting from a newly constructed cache, in every sequence of calls a
call `setNodeInfo(g, n)` returns true if and only if no earlier call of the
sequence is `setNodeInfo(g, n)`, and returns false if and only if there is
such an earlier call. -/
theorem setNodeInfo_true_iff_no_earlier_call (isStateEqual : σ → σ → Bool)
    (zero : ε) (growSlack : Nat → Nat → Nat) (pre post : List (Op σ ε))
    (g n : Nat) :
    ((results isStateEqual zero growSlack newCache
          (pre ++ Op.setNodeInfo g n :: post))[pre.length]? = some (Ret.flag true) ↔
        ∀ op ∈ pre, op ≠ Op.setNodeInfo g n) ∧
    ((results isStateEqual zero growSlack newCache
          (pre ++ Op.setNodeInfo g n :: post))[pre.length]? = some (Ret.flag false) ↔
        ∃ op ∈ pre, op = Op.setNodeInfo g n) := by
  have hinv : (run isStateEqual zero growSlack (newCache : cache σ ε) pre).nodeInfo
      ⟨g, n⟩ = none ↔ ∀ op ∈ pre, op ≠ Op.setNodeInfo g n := by
    rw [run_nodeInfo_eq_none_iff]
    exact ⟨fun h => h.2, fun h => ⟨rfl, h⟩⟩
  rw [results_getElem_length]
  simp only [exec, cache.setNodeInfo]
  cases h : (run isStateEqual zero growSlack (newCache : cache σ ε) pre).nodeInfo ⟨g, n⟩ with
  | none =>
    have hall := hinv.mp h
    refine ⟨by simpa using hall, ?_⟩
    constructor
    · intro hc; simp at hc
    · rintro ⟨op, hop, rfl⟩; exact absurd rfl (hall _ hop)
  | some u =>
    have hex : ¬ ∀ op ∈ pre, op ≠ Op.setNodeInfo g n := by
      intro hall
      rw [hinv.mpr hall] at h
      exact Option.noConfusion h
    constructor
    · constructor
      · intro hc; simp at hc
      · intro hall; exact absurd hall hex
    · constructor
      · intro _
        by_contra hno
        exact hex (fun op hop heq => hno ⟨op, hop, heq⟩)
      · intro _; rfl

/-- C2: `setState(K, st)` returns false exactly when a value `v` is cached for
`K` and the equality check holds of `v` and `st`; then the cache is unchanged.
In every other case it returns true and the value cached for `K` is `st`. -/
theorem setState_false_iff_cached_equal (isStateEqual : σ → σ → Bool)
    (r : cache σ ε) (g n : Nat) (st : σ) :
    ((r.setState isStateEqual g n st).2 = false ↔
        ∃ v, r.ps ⟨g, n⟩ = some v ∧ isStateEqual v st = true) ∧
    ((r.setState isStateEqual g n st).2 = false →
        (r.setState isStateEqual g n st).1 = r) ∧
    ((r.setState isStateEqual g n st).2 ≠ false →
        (r.setState isStateEqual g n st).2 = true ∧
        (r.setState isStateEqual g n st).1.ps ⟨g, n⟩ = some st) := by
  cases h : r.ps ⟨g, n⟩ with
  | none => simp [cache.setState_of_absent isStateEqual r g n st h, h, GoMap.store]
  | some v =>
    cases he : isStateEqual v st with
    | true => simp [cache.setState_of_equal isStateEqual r g n st v h he, h, he]
    | false =>
      simp [cache.setState_of_differs isStateEqual r g n st v h he, h, he, GoMap.store]

/-- C3: for a key with no persistent state cached and two states `s1`, `s2`
that differ in term or in vote, the consecutive calls `setState(K, s1)`,
`setState(K, s1)`, `setState(K, s2)` return true, false, true. -/
theorem setState_true_false_true (r : cache State ε) (g n : Nat) (s1 s2 : State)
    (hfresh : r.ps ⟨g, n⟩ = none)
    (hdiff : s1.Term ≠ s2.Term ∨ s1.Vote ≠ s2.Vote) :
    (r.setState IsStateEqual g n s1).2 = true ∧
    ((r.setState IsStateEqual g n s1).1.setState IsStateEqual g n s1).2 = false ∧
    (((r.setState IsStateEqual g n s1).1.setState IsStateEqual g n s1).1.setState
        IsStateEqual g n s2).2 = true := by
  have hne : IsStateEqual s1 s2 = false := by
    simp only [IsStateEqual, Bool.and_eq_false_imp, beq_iff_eq]
    intro ht
    rcases hdiff with hd | hd
    · exact absurd ht hd
    · simpa using hd
  have hrefl : IsStateEqual s1 s1 = true := by simp [IsStateEqual]
  simp [cache.setState, hfresh, GoMap.store, hrefl, hne]

/-- Witness of C3 on the new cache, key (1, 1), states (5, 1) and (6, 1). -/
theorem setState_true_false_true_witness :
    (newCache : cache State Nat).ps ⟨1, 1⟩ = none ∧
    ((⟨5, 1⟩ : State).Term ≠ (⟨6, 1⟩ : State).Term ∨
      (⟨5, 1⟩ : State).Vote ≠ (⟨6, 1⟩ : State).Vote) ∧
    ((newCache : cache State Nat).setState IsStateEqual 1 1 ⟨5, 1⟩).2 = true ∧
    ((((newCache : cache State Nat).setState IsStateEqual 1 1 ⟨5, 1⟩).1.setState
        IsStateEqual 1 1 ⟨5, 1⟩).2 = false ∧
    ((((newCache : cache State Nat).setState IsStateEqual 1 1 ⟨5, 1⟩).1.setState
        IsStateEqual 1 1 ⟨5, 1⟩).1.setState IsStateEqual 1 1 ⟨6, 1⟩).2 = true) :=
  ⟨rfl, Or.inl (by decide),
    setState_true_false_true (newCache : cache State Nat) 1 1 ⟨5, 1⟩ ⟨6, 1⟩ rfl
      (Or.inl (by decide))⟩

/-- C4: `getMaxIndex(K)` returns (0, false) after any sequence of calls on a
new cache in which `setMaxIndex(K, _)` does not occur; on every cache it
returns (N, true) right after `setMaxIndex(K, N)`, and (M, true) right after
`setMaxIndex(K, N)` followed by `setMaxIndex(K, M)`, for all N and M. -/
theorem getMaxIndex_after_setMaxIndex (isStateEqual : σ → σ → Bool) (zero : ε)
    (growSlack : Nat → Nat → Nat) (r : cache σ ε) (ops : List (Op σ ε))
    (g n N M : Nat) :
    ((∀ op ∈ ops, ∀ i, op ≠ Op.setMaxIndex g n i) →
        ((run isStateEqual zero growSlack newCache ops).getMaxIndex g n).2 =
          (0, false)) ∧
    ((r.setMaxIndex g n N).getMaxIndex g n).2 = (N, true) ∧
    (((r.setMaxIndex g n N).setMaxIndex g n M).getMaxIndex g n).2 = (M, true) := by
  refine ⟨?_, ?_, ?_⟩
  · intro hno
    have hinv := run_maxIndex_eq_none_iff isStateEqual zero growSlack ops
      (newCache : cache σ ε) ⟨g, n⟩
    have hnone := hinv.mpr ⟨rfl, hno⟩
    simp [cache.getMaxIndex, hnone]
  · simp [cache.getMaxIndex, cache.setMaxIndex, GoMap.store]
  · simp [cache.getMaxIndex, cache.setMaxIndex, GoMap.store]

/-- Witness of C4: after `setNodeInfo(1, 1)` and `setMaxIndex(2, 1, 5)` on the
new cache, `getMaxIndex(1, 1)` returns (0, false). -/
theorem getMaxIndex_after_setMaxIndex_witness :
    ((run IsStateEqual (0 : Nat) (fun _ _ => 0) (newCache : cache State Nat)
        [Op.setNodeInfo 1 1, Op.setMaxIndex 2 1 5]).getMaxIndex 1 1).2 = (0, false) :=
  (getMaxIndex_after_setMaxIndex IsStateEqual (0 : Nat) (fun _ _ => 0)
    (newCache : cache State Nat) [Op.setNodeInfo 1 1, Op.setMaxIndex 2 1 5]
    1 1 0 0).1 (by simp)

/-- C5: when `K` has the snapshot baseline `b`, `trySaveSnapshot(K, i)` returns
true if and only if `i > b`, and the whole cache is left unchanged. -/
theorem trySaveSnapshot_with_baseline (r : cache σ ε) (g n i b : Nat)
    (hbase : r.snapshotIndex ⟨g, n⟩ = some b) :
    ((r.trySaveSnapshot g n i).2 = true ↔ i > b) ∧
    (r.trySaveSnapshot g n i).1 = r ∧
    (r.trySaveSnapshot g n i).1.snapshotIndex ⟨g, n⟩ = some b := by
  rw [cache.trySaveSnapshot_of_present r g n i b hbase]
  simp [hbase]

/-- Witness of C5: baseline 10 for key (1, 1), index 11. -/
theorem trySaveSnapshot_with_baseline_witness :
    ((newCache : cache State Nat).setSnapshotIndex 1 1 10).snapshotIndex ⟨1, 1⟩ =
      some 10 ∧
    (((((newCache : cache State Nat).setSnapshotIndex 1 1 10).trySaveSnapshot
        1 1 11).2 = true ↔ 11 > 10) ∧
      (((newCache : cache State Nat).setSnapshotIndex 1 1 10).trySaveSnapshot
        1 1 11).1 = (newCache : cache State Nat).setSnapshotIndex 1 1 10 ∧
      (((newCache : cache State Nat).setSnapshotIndex 1 1 10).trySaveSnapshot
        1 1 11).1.snapshotIndex ⟨1, 1⟩ = some 10) :=
  ⟨rfl, trySaveSnapshot_with_baseline
    ((newCache : cache State Nat).setSnapshotIndex 1 1 10) 1 1 11 10 rfl⟩

/-- C6: when `K` has no snapshot baseline, `trySaveSnapshot(K, i)` returns true
for every index `i`, and the baseline of `K` afterwards is `i`. -/
theorem trySaveSnapshot_without_baseline (r : cache σ ε) (g n i : Nat)
    (hfresh : r.snapshotIndex ⟨g, n⟩ = none) :
    (r.trySaveSnapshot g n i).2 = true ∧
    (r.trySaveSnapshot g n i).1.snapshotIndex ⟨g, n⟩ = some i := by
  rw [cache.trySaveSnapshot_of_absent r g n i hfresh]
  exact ⟨rfl, GoMap.store_same _ _ _⟩

/-- Witness of C6: the new cache, key (1, 1), index 0. -/
theorem trySaveSnapshot_without_baseline_witness :
    (newCache : cache State Nat).snapshotIndex ⟨1, 1⟩ = none ∧
    ((newCache : cache State Nat).trySaveSnapshot 1 1 0).2 = true ∧
    ((newCache : cache State Nat).trySaveSnapshot 1 1 0).1.snapshotIndex ⟨1, 1⟩ =
      some 0 :=
  ⟨rfl, trySaveSnapshot_without_baseline (newCache : cache State Nat) 1 1 0 rfl⟩

/-- C7: on every cache, `setSnapshotIndex(K, N)` makes `N` the baseline of `K`
whatever the baseline was, and `trySaveSnapshot(K, M)` called next returns true
if and only if `M > N`, and false if and only if `M ≤ N`. -/
theorem trySaveSnapshot_after_setSnapshotIndex (r : cache σ ε) (g n N M : Nat) :
    (r.setSnapshotIndex g n N).snapshotIndex ⟨g, n⟩ = some N ∧
    (((r.setSnapshotIndex g n N).trySaveSnapshot g n M).2 = true ↔ M > N) ∧
    (((r.setSnapshotIndex g n N).trySaveSnapshot g n M).2 = false ↔ M ≤ N) := by
  have hbase : (r.setSnapshotIndex g n N).snapshotIndex ⟨g, n⟩ = some N :=
    GoMap.store_same _ _ _
  rw [cache.trySaveSnapshot_of_present _ g n M N hbase]
  simp [hbase]

/-- C8, as stated, fails: on the new cache the first `trySaveSnapshot(1, 1, 10)`
returns true and the second call with the same index, with no
`setSnapshotIndex` in between, returns false. -/
theorem trySaveSnapshot_repeated_counterexample :
    (newCache : cache State Nat).snapshotIndex ⟨1, 1⟩ = none ∧
    ((newCache : cache State Nat).trySaveSnapshot 1 1 10).2 = true ∧
    (((newCache : cache State Nat).trySaveSnapshot 1 1 10).1.trySaveSnapshot
      1 1 10).2 = false ∧
    ¬ (((newCache : cache State Nat).trySaveSnapshot 1 1 10).2 = true ∧
      (((newCache : cache State Nat).trySaveSnapshot 1 1 10).1.trySaveSnapshot
        1 1 10).2 = true) :=
  ⟨rfl, rfl, rfl, by decide⟩

/-- C8, amended: when `K` has no snapshot baseline, `trySaveSnapshot(K, N)`
returns true and stores `N` as the baseline, and a second call
`trySaveSnapshot(K, N)` with the same index returns false. -/
theorem trySaveSnapshot_repeated (r : cache σ ε) (g n N : Nat)
    (hfresh : r.snapshotIndex ⟨g, n⟩ = none) :
    (r.trySaveSnapshot g n N).2 = true ∧
    (r.trySaveSnapshot g n N).1.snapshotIndex ⟨g, n⟩ = some N ∧
    ((r.trySaveSnapshot g n N).1.trySaveSnapshot g n N).2 = false := by
  have hbase : (r.trySaveSnapshot g n N).1.snapshotIndex ⟨g, n⟩ = some N := by
    rw [cache.trySaveSnapshot_of_absent r g n N hfresh]
    exact GoMap.store_same _ _ _
  refine ⟨?_, hbase, ?_⟩
  · rw [cache.trySaveSnapshot_of_absent r g n N hfresh]
  · rw [cache.trySaveSnapshot_of_present _ g n N N hbase]
    simp

/-- Witness of the amended C8: the new cache, key (1, 1), index 10. -/
theorem trySaveSnapshot_repeated_witness :
    (newCache : cache State Nat).snapshotIndex ⟨1, 1⟩ = none ∧
    ((newCache : cache State Nat).trySaveSnapshot 1 1 10).2 = true ∧
    ((newCache : cache State Nat).trySaveSnapshot 1 1 10).1.snapshotIndex ⟨1, 1⟩ =
      some 10 ∧
    (((newCache : cache State Nat).trySaveSnapshot 1 1 10).1.trySaveSnapshot
      1 1 10).2 = false :=
  ⟨rfl, trySaveSnapshot_repeated (newCache : cache State Nat) 1 1 10 rfl⟩

/-- C9: on every cache, for every batch `eb` and every destination `lb`,
`setLastBatch(K, eb)` followed by `getLastBatch(K, lb)` returns found = true
and a batch whose entries are exactly those of `eb`, in the same order. -/
theorem getLastBatch_after_setLastBatch (zero : ε) (growSlack : Nat → Nat → Nat)
    (r : cache σ ε) (g n : Nat) (eb lb : EntryBatch ε) :
    ((r.setLastBatch zero growSlack g n eb).getLastBatch zero growSlack
        g n lb).2.2 = true ∧
    ((r.setLastBatch zero growSlack g n eb).getLastBatch zero growSlack
        g n lb).2.1.Entries.toList = eb.Entries.toList ∧
    ((r.setLastBatch zero growSlack g n eb).getLastBatch zero growSlack
        g n lb).2.1.Entries.len = eb.Entries.len := by
  obtain ⟨v, hv, hlist⟩ := cache.setLastBatch_lookup zero growSlack r g n eb
  rw [cache.getLastBatch_of_present zero growSlack _ g n lb v hv]
  have hto : (lb.Entries.reslice0.append zero growSlack v.Entries.toList).toList =
      eb.Entries.toList := by
    rw [Slice.toList_append, Slice.toList_reslice0, hlist]; rfl
  refine ⟨rfl, hto, ?_⟩
  have hlen : v.Entries.toList.length = eb.Entries.len := by
    rw [hlist, Slice.toList, List.length_take]
    exact Nat.min_eq_left eb.Entries.hlen
  show (lb.Entries.reslice0.append zero growSlack v.Entries.toList).len = eb.Entries.len
  rw [Slice.len_append, hlen]
  simp [Slice.reslice0]

/-- Witness of C9: key (1, 1) holds the longer batch 4, 5, 6, 7, 8, the batch
1, 2, 3 is stored over it and fetched into a destination holding 9, 9, 9, 9. -/
theorem getLastBatch_after_setLastBatch_witness :
    ((((newCache : cache State Nat).setLastBatch 0 (fun _ _ => 0) 1 1
        ⟨⟨[4, 5, 6, 7, 8], 5, by decide⟩⟩).setLastBatch 0 (fun _ _ => 0) 1 1
        ⟨⟨[1, 2, 3], 3, by decide⟩⟩).getLastBatch 0 (fun _ _ => 0) 1 1
        ⟨⟨[9, 9, 9, 9], 4, by decide⟩⟩).2.2 = true ∧
    ((((newCache : cache State Nat).setLastBatch 0 (fun _ _ => 0) 1 1
        ⟨⟨[4, 5, 6, 7, 8], 5, by decide⟩⟩).setLastBatch 0 (fun _ _ => 0) 1 1
        ⟨⟨[1, 2, 3], 3, by decide⟩⟩).getLastBatch 0 (fun _ _ => 0) 1 1
        ⟨⟨[9, 9, 9, 9], 4, by decide⟩⟩).2.1.Entries.toList = [1, 2, 3] :=
  ⟨(getLastBatch_after_setLastBatch 0 (fun _ _ => 0)
      ((newCache : cache State Nat).setLastBatch 0 (fun _ _ => 0) 1 1
        ⟨⟨[4, 5, 6, 7, 8], 5, by decide⟩⟩) 1 1
      ⟨⟨[1, 2, 3], 3, by decide⟩⟩ ⟨⟨[9, 9, 9, 9], 4, by decide⟩⟩).1,
    (getLastBatch_after_setLastBatch 0 (fun _ _ => 0)
      ((newCache : cache State Nat).setLastBatch 0 (fun _ _ => 0) 1 1
        ⟨⟨[4, 5, 6, 7, 8], 5, by decide⟩⟩) 1 1
      ⟨⟨[1, 2, 3], 3, by decide⟩⟩ ⟨⟨[9, 9, 9, 9], 4, by decide⟩⟩).2.1⟩

/-- C10, as stated, fails: on the new cache, `getLastBatch(1, 1, lb)` with the
destination `lb` holding the entries 7, 8 returns found = false and a batch
with no entries, not the entries of `lb`. -/
theorem getLastBatch_absent_counterexample :
    (newCache : cache State Nat).lastEntryBatch ⟨1, 1⟩ = none ∧
    (⟨⟨[7, 8], 2, by decide⟩⟩ : EntryBatch Nat).Entries.toList = [7, 8] ∧
    ((newCache : cache State Nat).getLastBatch 0 (fun _ _ => 0) 1 1
      ⟨⟨[7, 8], 2, by decide⟩⟩).2.2 = false ∧
    ((newCache : cache State Nat).getLastBatch 0 (fun _ _ => 0) 1 1
      ⟨⟨[7, 8], 2, by decide⟩⟩).2.1.Entries.toList = [] ∧
    ¬ (((newCache : cache State Nat).getLastBatch 0 (fun _ _ => 0) 1 1
        ⟨⟨[7, 8], 2, by decide⟩⟩).2.1.Entries.toList =
      (⟨⟨[7, 8], 2, by decide⟩⟩ : EntryBatch Nat).Entries.toList) :=
  ⟨rfl, rfl, rfl, rfl, by decide⟩

/-- C10, amended: when no batch is cached for `K`, `getLastBatch(K, lb)` returns
found = false together with the zero-value batch, which has no entries,
whatever `lb` holds, and leaves the cache unchanged. -/
theorem getLastBatch_absent (zero : ε) (growSlack : Nat → Nat → Nat)
    (r : cache σ ε) (g n : Nat) (lb : EntryBatch ε)
    (habsent : r.lastEntryBatch ⟨g, n⟩ = none) :
    (r.getLastBatch zero growSlack g n lb).2.2 = false ∧
    (r.getLastBatch zero growSlack g n lb).2.1 = EntryBatch.zero ∧
    (r.getLastBatch zero growSlack g n lb).2.1.Entries.toList = [] ∧
    (r.getLastBatch zero growSlack g n lb).1 = r := by
  rw [cache.getLastBatch_of_absent zero growSlack r g n lb habsent]
  exact ⟨rfl, rfl, rfl, rfl⟩

/-- Witness of the amended C10: the new cache, key (1, 1), destination holding
the entries 7, 8. -/
theorem getLastBatch_absent_witness :
    (newCache : cache State Nat).lastEntryBatch ⟨1, 1⟩ = none ∧
    ((newCache : cache State Nat).getLastBatch 0 (fun _ _ => 0) 1 1
      ⟨⟨[7, 8], 2, by decide⟩⟩).2.2 = false ∧
    ((newCache : cache State Nat).getLastBatch 0 (fun _ _ => 0) 1 1
      ⟨⟨[7, 8], 2, by decide⟩⟩).2.1 = EntryBatch.zero ∧
    ((newCache : cache State Nat).getLastBatch 0 (fun _ _ => 0) 1 1
      ⟨⟨[7, 8], 2, by decide⟩⟩).2.1.Entries.toList = [] ∧
    ((newCache : cache State Nat).getLastBatch 0 (fun _ _ => 0) 1 1
      ⟨⟨[7, 8], 2, by decide⟩⟩).1 = newCache :=
  ⟨rfl, getLastBatch_absent 0 (fun _ _ => 0) (newCache : cache State Nat) 1 1
    ⟨⟨[7, 8], 2, by decide⟩⟩ rfl⟩

/-- C11: `setNodeInfo(K)` on a registered key returns false and leaves the cache
unchanged; on a key that is not registered it returns true and the cache
afterwards is the old one with `K` added to the registered set.  Calling it
twice on the same key gives the same cache as calling it once. -/
theorem setNodeInfo_registers_once (r : cache σ ε) (g n : Nat) :
    (r.nodeInfo ⟨g, n⟩ ≠ none →
      (r.setNodeInfo g n).2 = false ∧ (r.setNodeInfo g n).1 = r) ∧
    (r.nodeInfo ⟨g, n⟩ = none →
      (r.setNodeInfo g n).2 = true ∧
      (r.setNodeInfo g n).1 = { r with nodeInfo := r.nodeInfo.store ⟨g, n⟩ () } ∧
      ∀ k, (r.setNodeInfo g n).1.nodeInfo k ≠ none ↔
        (r.nodeInfo k ≠ none ∨ k = ⟨g, n⟩)) ∧
    ((r.setNodeInfo g n).1.setNodeInfo g n).1 = (r.setNodeInfo g n).1 := by
  cases h : r.nodeInfo ⟨g, n⟩ with
  | none =>
    have h1 : r.setNodeInfo g n =
        ({ r with nodeInfo := r.nodeInfo.store ⟨g, n⟩ () }, true) := by
      simp [cache.setNodeInfo, h]
    refine ⟨fun hc => absurd rfl hc, fun _ => ⟨by rw [h1], by rw [h1], ?_⟩, ?_⟩
    · intro k
      rw [h1]
      by_cases hk : k = ⟨g, n⟩
      · subst hk; simp [GoMap.store]
      · simp [GoMap.store, hk]
    · rw [h1]
      simp [cache.setNodeInfo, GoMap.store]
  | some u =>
    have h1 : r.setNodeInfo g n = (r, false) := by
      simp [cache.setNodeInfo, h]
    refine ⟨fun _ => ⟨by rw [h1], by rw [h1]⟩, fun hc => Option.noConfusion hc, ?_⟩
    rw [h1]
    exact congrArg Prod.fst h1

/-- Witness of C11: on the new cache, `setNodeInfo(1, 1)` returns true, and the
second call returns false and changes nothing. -/
theorem setNodeInfo_registers_once_witness :
    ((newCache : cache State Nat).setNodeInfo 1 1).2 = true ∧
    (((newCache : cache State Nat).setNodeInfo 1 1).1.setNodeInfo 1 1).2 = false ∧
    (((newCache : cache State Nat).setNodeInfo 1 1).1.setNodeInfo 1 1).1 =
      ((newCache : cache State Nat).setNodeInfo 1 1).1 :=
  ⟨((setNodeInfo_registers_once (newCache : cache State Nat) 1 1).2.1 rfl).1,
    ((setNodeInfo_registers_once ((newCache : cache State Nat).setNodeInfo 1 1).1
      1 1).1 (by decide)).1,
    (setNodeInfo_registers_once (newCache : cache State Nat) 1 1).2.2⟩

/-- C14: the new cache has its five maps empty; on it `getMaxIndex(K)` returns
(0, false), `getLastBatch(K, lb)` returns found = false, and `setNodeInfo(K)`,
`setState(K, st)` and `trySaveSnapshot(K, i)` return true, for every key and
every argument. -/
theorem newCache_is_empty (isStateEqual : σ → σ → Bool) (zero : ε)
    (growSlack : Nat → Nat → Nat) (g n i : Nat) (st : σ) (lb : EntryBatch ε) :
    (∀ k, (newCache : cache σ ε).nodeInfo k = none ∧
      (newCache : cache σ ε).ps k = none ∧
      (newCache : cache σ ε).lastEntryBatch k = none ∧
      (newCache : cache σ ε).maxIndex k = none ∧
      (newCache : cache σ ε).snapshotIndex k = none) ∧
    ((newCache : cache σ ε).getMaxIndex g n).2 = (0, false) ∧
    ((newCache : cache σ ε).getLastBatch zero growSlack g n lb).2.2 = false ∧
    ((newCache : cache σ ε).setNodeInfo g n).2 = true ∧
    ((newCache : cache σ ε).setState isStateEqual g n st).2 = true ∧
    ((newCache : cache σ ε).trySaveSnapshot g n i).2 = true :=
  ⟨fun _ => ⟨rfl, rfl, rfl, rfl, rfl⟩, rfl, rfl, rfl, rfl, rfl⟩

/-- C15: on the new cache the calls `setNodeInfo(1, 1)`, `setNodeInfo(1, 1)`,
`setState(1, 1, {5, 1})`, `setState(1, 1, {5, 1})`, `setState(1, 1, {6, 1})`
return true, false, true, false, true in that order. -/
theorem end_to_end_scenario (zero : ε) (growSlack : Nat → Nat → Nat) :
    results IsStateEqual zero growSlack (newCache : cache State ε)
      [Op.setNodeInfo 1 1, Op.setNodeInfo 1 1, Op.setState 1 1 ⟨5, 1⟩,
        Op.setState 1 1 ⟨5, 1⟩, Op.setState 1 1 ⟨6, 1⟩] =
      [Ret.flag true, Ret.flag false, Ret.flag true, Ret.flag false, Ret.flag true] :=
  rfl

/-- C19: when `K` has no snapshot baseline, after `trySaveSnapshot(K, N)` a
following `trySaveSnapshot(K, M)` returns true if and only if `M > N`: the
first call installs `N` as the baseline, and no sequence of later
`trySaveSnapshot` calls on `K` changes the baseline or the cache. -/
theorem trySaveSnapshot_installs_baseline (isStateEqual : σ → σ → Bool)
    (zero : ε) (growSlack : Nat → Nat → Nat) (r : cache σ ε) (g n N M : Nat)
    (indexes : List Nat) (hfresh : r.snapshotIndex ⟨g, n⟩ = none) :
    (r.trySaveSnapshot g n N).1.snapshotIndex ⟨g, n⟩ = some N ∧
    (((r.trySaveSnapshot g n N).1.trySaveSnapshot g n M).2 = true ↔ M > N) ∧
    ((r.trySaveSnapshot g n N).1.trySaveSnapshot g n M).1 =
      (r.trySaveSnapshot g n N).1 ∧
    (run isStateEqual zero growSlack (r.trySaveSnapshot g n N).1
      (indexes.map (Op.trySaveSnapshot g n))).snapshotIndex ⟨g, n⟩ = some N := by
  have hbase : (r.trySaveSnapshot g n N).1.snapshotIndex ⟨g, n⟩ = some N := by
    rw [cache.trySaveSnapshot_of_absent r g n N hfresh]
    exact GoMap.store_same _ _ _
  refine ⟨hbase, ?_, ?_, ?_⟩
  · rw [cache.trySaveSnapshot_of_present _ g n M N hbase]
    simp
  · rw [cache.trySaveSnapshot_of_present _ g n M N hbase]
  · rw [run_trySaveSnapshot_baseline isStateEqual zero growSlack g n N indexes _ hbase]
    exact hbase

/-- Witness of C19: the new cache, key (1, 1), first index 10, second index 11,
then the further indexes 3 and 20. -/
theorem trySaveSnapshot_installs_baseline_witness :
    (newCache : cache State Nat).snapshotIndex ⟨1, 1⟩ = none ∧
    ((((newCache : cache State Nat).trySaveSnapshot 1 1 10).1.trySaveSnapshot
      1 1 11).2 = true ↔ 11 > 10) ∧
    (run IsStateEqual 0 (fun _ _ => 0)
      ((newCache : cache State Nat).trySaveSnapshot 1 1 10).1
      ([3, 20].map (Op.trySaveSnapshot 1 1))).snapshotIndex ⟨1, 1⟩ = some 10 :=
  ⟨rfl,
    (trySaveSnapshot_installs_baseline IsStateEqual 0 (fun _ _ => 0)
      (newCache : cache State Nat) 1 1 10 11 [3, 20] rfl).2.1,
    (trySaveSnapshot_installs_baseline IsStateEqual 0 (fun _ _ => 0)
      (newCache : cache State Nat) 1 1 10 11 [3, 20] rfl).2.2.2⟩

/-- C20: `getMaxIndex(K)` and `getLastBatch(K, lb)` leave the cache, hence all
five maps, as they were, whether or not the key is found; a repeated read
returns the same result, and `getLastBatch` returns the same found flag and the
same entries for any two destinations. -/
theorem reads_leave_cache_unchanged (zero : ε) (growSlack : Nat → Nat → Nat)
    (r : cache σ ε) (g n : Nat) (lb lb2 : EntryBatch ε) :
    (r.getMaxIndex g n).1 = r ∧
    (r.getLastBatch zero growSlack g n lb).1 = r ∧
    ((r.getMaxIndex g n).1.getMaxIndex g n).2 = (r.getMaxIndex g n).2 ∧
    ((r.getLastBatch zero growSlack g n lb).1.getLastBatch zero growSlack
        g n lb).2 = (r.getLastBatch zero growSlack g n lb).2 ∧
    ((r.getLastBatch zero growSlack g n lb).1.getLastBatch zero growSlack
        g n lb2).2.2 = (r.getLastBatch zero growSlack g n lb).2.2 ∧
    ((r.getLastBatch zero growSlack g n lb).1.getLastBatch zero growSlack
        g n lb2).2.1.Entries.toList =
      (r.getLastBatch zero growSlack g n lb).2.1.Entries.toList := by
  refine ⟨cache.getMaxIndex_state r g n, cache.getLastBatch_state zero growSlack r g n lb,
    ?_, ?_, ?_, ?_⟩
  · rw [cache.getMaxIndex_state]
  · rw [cache.getLastBatch_state]
  · rw [cache.getLastBatch_state]
    cases h : r.lastEntryBatch ⟨g, n⟩ with
    | none =>
      rw [cache.getLastBatch_of_absent zero growSlack r g n lb h,
        cache.getLastBatch_of_absent zero growSlack r g n lb2 h]
    | some v =>
      rw [cache.getLastBatch_of_present zero growSlack r g n lb v h,
        cache.getLastBatch_of_present zero growSlack r g n lb2 v h]
  · rw [cache.getLastBatch_state]
    cases h : r.lastEntryBatch ⟨g, n⟩ with
    | none =>
      rw [cache.getLastBatch_of_absent zero growSlack r g n lb h,
        cache.getLastBatch_of_absent zero growSlack r g n lb2 h]
    | some v =>
      rw [cache.getLastBatch_of_present zero growSlack r g n lb v h,
        cache.getLastBatch_of_present zero growSlack r g n lb2 v h]
      simp [Slice.toList_append, Slice.toList_reslice0]

/-- C12: each of the eight calls, and hence every sequence of calls, only grows
the five maps: a key present in a map before is still present in it after. -/
theorem maps_only_grow (isStateEqual : σ → σ → Bool) (zero : ε)
    (growSlack : Nat → Nat → Nat) (r : cache σ ε) (op : Op σ ε)
    (ops : List (Op σ ε)) (k : NodeInfo) :
    ((r.nodeInfo k ≠ none →
        (exec isStateEqual zero growSlack r op).1.nodeInfo k ≠ none) ∧
      (r.ps k ≠ none → (exec isStateEqual zero growSlack r op).1.ps k ≠ none) ∧
      (r.lastEntryBatch k ≠ none →
        (exec isStateEqual zero growSlack r op).1.lastEntryBatch k ≠ none) ∧
      (r.maxIndex k ≠ none →
        (exec isStateEqual zero growSlack r op).1.maxIndex k ≠ none) ∧
      (r.snapshotIndex k ≠ none →
        (exec isStateEqual zero growSlack r op).1.snapshotIndex k ≠ none)) ∧
    ((r.nodeInfo k ≠ none →
        (run isStateEqual zero growSlack r ops).nodeInfo k ≠ none) ∧
      (r.ps k ≠ none → (run isStateEqual zero growSlack r ops).ps k ≠ none) ∧
      (r.lastEntryBatch k ≠ none →
        (run isStateEqual zero growSlack r ops).lastEntryBatch k ≠ none) ∧
      (r.maxIndex k ≠ none →
        (run isStateEqual zero growSlack r ops).maxIndex k ≠ none) ∧
      (r.snapshotIndex k ≠ none →
        (run isStateEqual zero growSlack r ops).snapshotIndex k ≠ none)) :=
  ⟨exec_present isStateEqual zero growSlack r op k,
    run_present isStateEqual zero growSlack ops r k⟩

/-- Witness of C12: the maximum index recorded for key (1, 1) is still present
after calls on the same key and on another key. -/
theorem maps_only_grow_witness :
    (run IsStateEqual 0 (fun _ _ => 0)
      ((newCache : cache State Nat).setMaxIndex 1 1 5)
      [Op.trySaveSnapshot 1 1 3, Op.setMaxIndex 2 1 9, Op.getMaxIndex 1 1,
        Op.setMaxIndex 1 1 2]).maxIndex ⟨1, 1⟩ ≠ none :=
  (maps_only_grow IsStateEqual 0 (fun _ _ => 0)
    ((newCache : cache State Nat).setMaxIndex 1 1 5) (Op.getMaxIndex 1 1)
    [Op.trySaveSnapshot 1 1 3, Op.setMaxIndex 2 1 9, Op.getMaxIndex 1 1,
      Op.setMaxIndex 1 1 2] ⟨1, 1⟩).2.2.2.2.1 (by decide)

/-- C13: every call leaves the maps other than its own as they were:
`setNodeInfo` all but `nodeInfo`, `setState` all but `ps`, `setMaxIndex` all
but `maxIndex`, `trySaveSnapshot` and `setSnapshotIndex` all but
`snapshotIndex`, `setLastBatch` all but `lastEntryBatch`, and the two reads
all five.  So a key can be in one map and in no other: after `setNodeInfo(K)`
on the new cache `K` is registered and `getMaxIndex(K)` returns (0, false). -/
theorem calls_change_own_map_only (isStateEqual : σ → σ → Bool) (zero : ε)
    (growSlack : Nat → Nat → Nat) (r : cache σ ε) (g n i : Nat) (st : σ)
    (eb : EntryBatch ε) :
    ((r.setNodeInfo g n).1.ps = r.ps ∧
      (r.setNodeInfo g n).1.lastEntryBatch = r.lastEntryBatch ∧
      (r.setNodeInfo g n).1.maxIndex = r.maxIndex ∧
      (r.setNodeInfo g n).1.snapshotIndex = r.snapshotIndex) ∧
    ((r.setState isStateEqual g n st).1.nodeInfo = r.nodeInfo ∧
      (r.setState isStateEqual g n st).1.lastEntryBatch = r.lastEntryBatch ∧
      (r.setState isStateEqual g n st).1.maxIndex = r.maxIndex ∧
      (r.setState isStateEqual g n st).1.snapshotIndex = r.snapshotIndex) ∧
    ((r.setMaxIndex g n i).nodeInfo = r.nodeInfo ∧
      (r.setMaxIndex g n i).ps = r.ps ∧
      (r.setMaxIndex g n i).lastEntryBatch = r.lastEntryBatch ∧
      (r.setMaxIndex g n i).snapshotIndex = r.snapshotIndex) ∧
    ((r.trySaveSnapshot g n i).1.nodeInfo = r.nodeInfo ∧
      (r.trySaveSnapshot g n i).1.ps = r.ps ∧
      (r.trySaveSnapshot g n i).1.lastEntryBatch = r.lastEntryBatch ∧
      (r.trySaveSnapshot g n i).1.maxIndex = r.maxIndex) ∧
    ((r.setSnapshotIndex g n i).nodeInfo = r.nodeInfo ∧
      (r.setSnapshotIndex g n i).ps = r.ps ∧
      (r.setSnapshotIndex g n i).lastEntryBatch = r.lastEntryBatch ∧
      (r.setSnapshotIndex g n i).maxIndex = r.maxIndex) ∧
    ((r.setLastBatch zero growSlack g n eb).nodeInfo = r.nodeInfo ∧
      (r.setLastBatch zero growSlack g n eb).ps = r.ps ∧
      (r.setLastBatch zero growSlack g n eb).maxIndex = r.maxIndex ∧
      (r.setLastBatch zero growSlack g n eb).snapshotIndex = r.snapshotIndex) ∧
    ((r.getMaxIndex g n).1 = r ∧
      (r.getLastBatch zero growSlack g n eb).1 = r) ∧
    (((newCache : cache σ ε).setNodeInfo g n).1.nodeInfo ⟨g, n⟩ = some () ∧
      (((newCache : cache σ ε).setNodeInfo g n).1.getMaxIndex g n).2 = (0, false)) :=
  ⟨cache.setNodeInfo_frame r g n, cache.setState_frame isStateEqual r g n st,
    ⟨rfl, rfl, rfl, rfl⟩, cache.trySaveSnapshot_frame r g n i,
    ⟨rfl, rfl, rfl, rfl⟩, ⟨rfl, rfl, rfl, rfl⟩,
    ⟨cache.getMaxIndex_state r g n, cache.getLastBatch_state zero growSlack r g n eb⟩,
    ⟨by simp [cache.setNodeInfo, newCache, GoMap.empty, GoMap.store],
      by simp [cache.setNodeInfo, cache.getMaxIndex, newCache, GoMap.empty]⟩⟩

/-- C17: a call on a key `K` leaves the entry of every other key `k` in each of
the five maps as it was, and every call on `k` made next returns what it
would have returned without the call on `K`. -/
theorem keys_are_isolated (isStateEqual : σ → σ → Bool) (zero : ε)
    (growSlack : Nat → Nat → Nat) (r : cache σ ε) (op : Op σ ε) (k : NodeInfo)
    (hk : op.key ≠ k) :
    ((exec isStateEqual zero growSlack r op).1.nodeInfo k = r.nodeInfo k ∧
      (exec isStateEqual zero growSlack r op).1.ps k = r.ps k ∧
      (exec isStateEqual zero growSlack r op).1.lastEntryBatch k =
        r.lastEntryBatch k ∧
      (exec isStateEqual zero growSlack r op).1.maxIndex k = r.maxIndex k ∧
      (exec isStateEqual zero growSlack r op).1.snapshotIndex k =
        r.snapshotIndex k) ∧
    ∀ q : Op σ ε, q.key = k →
      (exec isStateEqual zero growSlack
        (exec isStateEqual zero growSlack r op).1 q).2 =
      (exec isStateEqual zero growSlack r q).2 := by
  have hframe := exec_other_key isStateEqual zero growSlack r op k hk
  refine ⟨hframe, ?_⟩
  intro q hq
  subst hq
  obtain ⟨h1, h2, h3, h4, h5⟩ := hframe
  exact exec_ret_congr isStateEqual zero growSlack _ r q h1 h2 h3 h4 h5

/-- Witness of C17: keys (1, 2) and (2, 1).  With the maximum index 7 recorded
for (2, 1), `setMaxIndex(1, 2, 5)` leaves that entry as it was and
`getMaxIndex(2, 1)` still returns (7, true). -/
theorem keys_are_isolated_witness :
    (Op.setMaxIndex 1 2 5 : Op State Nat).key ≠ ⟨2, 1⟩ ∧
    (exec IsStateEqual 0 (fun _ _ => 0)
      ((newCache : cache State Nat).setMaxIndex 2 1 7)
      (Op.setMaxIndex 1 2 5)).1.maxIndex ⟨2, 1⟩ = some 7 ∧
    (exec IsStateEqual 0 (fun _ _ => 0)
      (exec IsStateEqual 0 (fun _ _ => 0)
        ((newCache : cache State Nat).setMaxIndex 2 1 7)
        (Op.setMaxIndex 1 2 5)).1 (Op.getMaxIndex 2 1)).2 = Ret.index 7 true :=
  ⟨by decide,
    (keys_are_isolated IsStateEqual 0 (fun _ _ => 0)
      ((newCache : cache State Nat).setMaxIndex 2 1 7) (Op.setMaxIndex 1 2 5)
      ⟨2, 1⟩ (by decide)).1.2.2.2.1,
    (keys_are_isolated IsStateEqual 0 (fun _ _ => 0)
      ((newCache : cache State Nat).setMaxIndex 2 1 7) (Op.setMaxIndex 1 2 5)
      ⟨2, 1⟩ (by decide)).2 (Op.getMaxIndex 2 1) rfl⟩

/-- C18: in a sequence of calls on the new cache that follows the
check-then-commit discipline for `K` (every `setSnapshotIndex(K, M)` comes after
a `trySaveSnapshot(K, M)` that returned true, with no other snapshot call on
`K` in between), the baseline of `K` never decreases: a baseline `b` recorded
at one point of the sequence is followed at every later point by a baseline
that is at least `b`. -/
theorem baseline_never_decreases (isStateEqual : σ → σ → Bool) (zero : ε)
    (growSlack : Nat → Nat → Nat) (g n b : Nat) (pre mid rest : List (Op σ ε))
    (hd : disciplined isStateEqual zero growSlack g n (newCache : cache σ ε) none
      (pre ++ (mid ++ rest)) = true)
    (hb : (run isStateEqual zero growSlack (newCache : cache σ ε) pre).snapshotIndex
      ⟨g, n⟩ = some b) :
    ∃ b1, (run isStateEqual zero growSlack (newCache : cache σ ε)
        (pre ++ mid)).snapshotIndex ⟨g, n⟩ = some b1 ∧ b ≤ b1 := by
  obtain ⟨p1, hinv1, hd1⟩ :=
    disciplined_after isStateEqual zero growSlack g n pre (mid ++ rest)
      (newCache : cache σ ε) none (fun M hM => Option.noConfusion hM) hd
  rw [run_append]
  exact disciplined_baseline_le isStateEqual zero growSlack g n mid rest _ p1 b
    hinv1 hd1 hb

/-- Witness of C18: key (1, 1); check and commit of index 5, a rejected check
of index 3, a call on another key, then check and commit of index 7.  The
baseline is 5 after the first two calls and 7 at the end. -/
theorem baseline_never_decreases_witness :
    disciplined IsStateEqual (0 : Nat) (fun _ _ => 0) 1 1
      (newCache : cache State Nat) none
      ([Op.trySaveSnapshot 1 1 5, Op.setSnapshotIndex 1 1 5] ++
        ([Op.trySaveSnapshot 1 1 3, Op.setSnapshotIndex 2 1 0,
          Op.trySaveSnapshot 1 1 7, Op.setSnapshotIndex 1 1 7] ++ [])) = true ∧
    (run IsStateEqual (0 : Nat) (fun _ _ => 0) (newCache : cache State Nat)
      [Op.trySaveSnapshot 1 1 5, Op.setSnapshotIndex 1 1 5]).snapshotIndex
      ⟨1, 1⟩ = some 5 ∧
    (run IsStateEqual (0 : Nat) (fun _ _ => 0) (newCache : cache State Nat)
      ([Op.trySaveSnapshot 1 1 5, Op.setSnapshotIndex 1 1 5] ++
        [Op.trySaveSnapshot 1 1 3, Op.setSnapshotIndex 2 1 0,
          Op.trySaveSnapshot 1 1 7, Op.setSnapshotIndex 1 1 7])).snapshotIndex
      ⟨1, 1⟩ = some 7 ∧
    ∃ b1, (run IsStateEqual (0 : Nat) (fun _ _ => 0) (newCache : cache State Nat)
      ([Op.trySaveSnapshot 1 1 5, Op.setSnapshotIndex 1 1 5] ++
        [Op.trySaveSnapshot 1 1 3, Op.setSnapshotIndex 2 1 0,
          Op.trySaveSnapshot 1 1 7, Op.setSnapshotIndex 1 1 7])).snapshotIndex
      ⟨1, 1⟩ = some b1 ∧ 5 ≤ b1 :=
  ⟨rfl, rfl, rfl,
    baseline_never_decreases IsStateEqual (0 : Nat) (fun _ _ => 0) 1 1 5
      [Op.trySaveSnapshot 1 1 5, Op.setSnapshotIndex 1 1 5]
      [Op.trySaveSnapshot 1 1 3, Op.setSnapshotIndex 2 1 0,
        Op.trySaveSnapshot 1 1 7, Op.setSnapshotIndex 1 1 7] [] rfl rfl⟩

end properties

end logdb
